import Mathlib

/-!
Verification development for the `graph` REST resource of the cis-girder
plugin (`server/rest/graph.py`).

The resource is glue code: each handler is a straight-line sequence of
dictionary accesses, calls to external collaborators (the Girder storage
model, `fbpToCis`, `prep_yaml`, `get_schema().normalize/validate`,
`pyaml.dump`, `execGraph`) and a return.  We embed the handlers shallowly:

* JSON / YAML / document values are the inductive `Val`;
* Python dicts are association lists `Dict` with first-match lookup and
  in-place update (`setKey`), matching Python dict assignment semantics;
* every external collaborator is a field of an explicit environment
  (`Env`), so the handlers are pure functions of that environment;
* exceptions become `Except` / explicit error sums, and the two
  side-effects the claims talk about (the staged temporary file, the
  execution dispatch) are recorded as explicit observation fields of the
  handler's result.
-/

namespace Cis

/-- Values carried by request bodies, stored documents and YAML files
(the JSON/YAML fragment actually used by the handlers). -/
inductive Val where
  | null
  | bool (b : Bool)
  | int (n : Int)
  | str (s : String)
  | list (xs : List Val)
  | dict (kvs : List (String × Val))

/-- A Python dict with string keys, as the handlers use them. -/
abbrev Dict := List (String × Val)

/-- Dict access `d[k]` as a total lookup: first binding for `k`, if any
(`k in d` is `lookup d k ≠ none`). -/
def lookup : Dict → String → Option Val
  | [], _ => none
  | (k', v) :: rest, k => if k' = k then some v else lookup rest k

/-- Python dict assignment `d[k] = v`: replace the first binding of `k`
in place, or append a new binding when `k` is absent. -/
def setKey : Dict → String → Val → Dict
  | [], k, v => [(k, v)]
  | (k', v') :: rest, k, v =>
      if k' = k then (k', v) :: rest else (k', v') :: setKey rest k v

/-- Python truthiness of a `Val`, as evaluated by `if graph['public']`. -/
def truthy : Val → Bool
  | .null => false
  | .bool b => b
  | .int n => n != 0
  | .str s => s ≠ ""
  | .list xs => !xs.isEmpty
  | .dict kvs => !kvs.isEmpty

/-- The fields of a Girder user document that the handlers read:
`user['admin']`, `user['login']`, and the user's id (used by the storage
model to tag created graphs). -/
structure User where
  id : String
  login : String
  admin : Bool
deriving DecidableEq, Repr

/-- Errors a handler can surface: an uncaught Python `KeyError` on a
missing body key (a generic server error, not a framework 4xx), an
uncaught exception propagating out of an external collaborator, or a
`RestException(msg, code, extra)`. -/
inductive ApiErr where
  | keyError (k : String)
  | uncaught (e : String)
  | rest (msg : String) (code : Nat) (extra : String)
deriving DecidableEq, Repr

/-- Handler `updateGraph` (graph.py lines 165--177), acting on the loaded document
`graphObj` and the JSON body `graph`:

  ```
  graphObj['name'] = graph['name']
  graphObj['content'] = graph['content']
  if 'public' in graph and graph['public'] and not user['admin']:
      raise RestException('Not authorized to create public graphs', 403)
  elif 'public' in graph:
      graphObj['public'] = graph['public']
  return self.model('graph', 'cis').updateGraph(graphObj)
  ```

The returned `Dict` is the document handed to the storage model's
`updateGraph` for persistence; an `error` result means that call is never
reached. -/
def updateGraph (user : User) (graphObj graph : Dict) : Except ApiErr Dict :=
  match lookup graph "name" with
  | none => .error (.keyError "name")
  | some nm =>
    match lookup graph "content" with
    | none => .error (.keyError "content")
    | some ct =>
      let g1 := setKey graphObj "name" nm
      let g2 := setKey g1 "content" ct
      match lookup graph "public" with
      | some p =>
          if truthy p && !user.admin then
            .error (.rest "Not authorized to create public graphs" 403 "")
          else
            .ok (setKey g2 "public" p)
      | none => .ok g2

/-- The stored record after an `updateGraph` request, together with
whether the storage model's persistence call was made.  The route loads
`graphObj` (the stored record) via `modelParam`, runs the handler body,
and the storage model persists exactly the document passed to it
(`Modelled from the spec:` the plugin's model class is not under the
source tree; per the spec the update "persists via storage model" the
record it is given).  On an exception the persistence call is never
reached and the stored record is untouched. -/
def runUpdateOnStore (stored : Dict) (user : User) (body : Dict) :
    Dict × Bool :=
  match updateGraph user stored body with
  | .ok newDoc => (newDoc, true)
  | .error _ => (stored, false)

/-- Modelled from the spec: the plugin's storage-model class
(`server/models/graph.py`, not under the source tree) whose `createGraph`
is delegated to by the POST handler; per the spec it "persists a new
graph record tagged with the creator", i.e. the stored record carries
`creatorId` equal to the creating user's identifier (storage-assigned
`_id` and timestamps are left to the storage layer and not modelled). -/
def modelCreateGraph (graph : Dict) (creator : User) : Dict :=
  setKey graph "creatorId" (.str creator.id)

/-- Handler `createGraph` (graph.py lines 122--128): delegates to the storage
model with the current user as creator. -/
def createGraph (user : User) (graph : Dict) : Dict :=
  modelCreateGraph graph user

/-- Outcome of the framework's `modelParam` document load. -/
inductive LoadErr where
  | invalidId
  | accessDenied
deriving DecidableEq, Repr

/-- The Girder framework's `modelParam` loader, as configured by a route:
it resolves the id in the document store (`db`); an unresolvable id is an
invalid-id/not-found error; with `force := true` the document is returned
with no access check at all, otherwise access is checked via `hasAccess`
(the framework's ACL decision for the requesting user at the configured
level) and failure is a 403 access-denied error. -/
def modelParamLoad (db : String → Option Dict)
    (hasAccess : Option User → Dict → Bool) (force : Bool)
    (u : Option User) (id : String) : Except LoadErr Dict :=
  match db id with
  | none => .error .invalidId
  | some doc =>
      if force then .ok doc
      else if hasAccess u doc then .ok doc
      else .error .accessDenied

/-- Handler `getGraph` (graph.py lines 130--141): the route is `@access.public`
and declares `.modelParam('id', model='graph', plugin='cis', force=True)`;
the handler body just returns the loaded document.  `force=True` is
passed literally from line 134. -/
def getGraph (db : String → Option Dict)
    (hasAccess : Option User → Dict → Bool) (u : Option User)
    (id : String) : Except LoadErr Dict :=
  modelParamLoad db hasAccess true u id

/-- The external collaborators invoked by `convertGraph` / `executeGraph`,
as abstract (deterministic) functions:

* `fbpToCis` — the FBP-to-cis format translator (`..utils.fbpToCis`);
* `asStr` — `yggdrasil.backwards.as_str(..., recurse=True, allow_pass=True)`;
* `safeDump` — `yaml.safe_dump(cisgraph, tmpfile, default_flow_style=False)`,
  giving the temp file's contents;
* `prepYaml` — `prep_yaml(tmpfile.name)` reading those contents; it may
  raise (any exception text), which the handlers do not catch;
* `normalize` / `validate` — `get_schema().normalize` and `.validate`;
  `validate` either succeeds or raises with some exception text;
* `pyamlDump` — `pyaml.dump`;
* `parse` — a YAML reader, used only to state what the returned text
  re-parses to;
* `execGraph` — job submission `execGraph(yaml_graph, username)`. -/
structure Env where
  fbpToCis : Val → Val
  asStr : Val → Val
  safeDump : Val → String
  prepYaml : String → Except String Val
  normalize : Val → Val
  validate : Val → Except String Unit
  pyamlDump : Val → String
  parse : String → Option Val
  execGraph : String → String → Val

/-- Observable outcome of a `convertGraph` / `executeGraph` call:
the returned value or the error raised, whether the staged temporary
file is still on the filesystem after the call, and whether the
execution dispatch (`execGraph`) was invoked. -/
structure RunOut (α : Type) where
  result : Except ApiErr α
  tmpLeft : Bool
  execCalled : Bool

/-- Handler `convertGraph` (graph.py lines 187--209), step by step:

  ```
  cisgraph = fbpToCis(graph['content'])
  cisgraph = as_str(cisgraph, recurse=True, allow_pass=True)
  tmpfile = tempfile.NamedTemporaryFile(..., delete=False)
  yaml.safe_dump(cisgraph, tmpfile, default_flow_style=False)
  yml_prep = prep_yaml(tmpfile.name)
  os.remove(tmpfile.name)
  s = get_schema()
  yml_norm = s.normalize(yml_prep)
  try: s.validate(yml_norm)
  except BaseException as e: raise RestException('Invalid graph %s', 400, e)
  return pyaml.dump(cisgraph)
  ```

`tmpLeft` is whether the uniquely-named temp file still exists when the
handler returns or raises: it is created before `prep_yaml` and removed
by the `os.remove` that follows it, so an uncaught `prep_yaml` exception
leaves it behind, while from the removal on (normalize, validate, return)
it is gone.  A missing `'content'` key raises `KeyError` before any file
is created.  `convertGraph` never dispatches execution. -/
def convertGraph (env : Env) (graph : Dict) : RunOut String :=
  match lookup graph "content" with
  | none => ⟨.error (.keyError "content"), false, false⟩
  | some content =>
    let cisgraph := env.asStr (env.fbpToCis content)
    let staged := env.safeDump cisgraph
    match env.prepYaml staged with
    | .error e => ⟨.error (.uncaught e), true, false⟩
    | .ok ymlPrep =>
      let ymlNorm := env.normalize ymlPrep
      match env.validate ymlNorm with
      | .error e => ⟨.error (.rest "Invalid graph %s" 400 e), false, false⟩
      | .ok _ => ⟨.ok (env.pyamlDump cisgraph), false, false⟩

/-- Handler `executeGraph` (graph.py lines 219--247): textually the same
conversion / staging / normalization / validation sequence as
`convertGraph` (with `username = user['login']` read up front), followed
on success by `return execGraph(pyaml.dump(cisgraph), username)`, which
is the only point where execution is dispatched. -/
def executeGraph (env : Env) (user : User) (graph : Dict) : RunOut Val :=
  match lookup graph "content" with
  | none => ⟨.error (.keyError "content"), false, false⟩
  | some content =>
    let cisgraph := env.asStr (env.fbpToCis content)
    let username := user.login
    let staged := env.safeDump cisgraph
    match env.prepYaml staged with
    | .error e => ⟨.error (.uncaught e), true, false⟩
    | .ok ymlPrep =>
      let ymlNorm := env.normalize ymlPrep
      match env.validate ymlNorm with
      | .error e => ⟨.error (.rest "Invalid graph %s" 400 e), false, false⟩
      | .ok _ =>
        let yamlGraph := env.pyamlDump cisgraph
        ⟨.ok (env.execGraph yamlGraph username), false, true⟩

/-- The error component of a handler result, for comparing runs. -/
def errOf {α : Type} : Except ApiErr α → Option ApiErr
  | .ok _ => none
  | .error e => some e

/-- The document produced by schema normalization during a
`convertGraph` / `executeGraph` run (`yml_norm` at graph.py line 201 /
236), when the run reaches that point. -/
def normalizedDoc (env : Env) (graph : Dict) : Option Val :=
  match lookup graph "content" with
  | none => none
  | some content =>
    match env.prepYaml (env.safeDump (env.asStr (env.fbpToCis content))) with
    | .error _ => none
    | .ok ymlPrep => some (env.normalize ymlPrep)

/-- Whether an outcome is an uncaught staging (`prep_yaml`) exception:
the only outcome in which the temporary file is left on disk. -/
def leftOrphan : Option ApiErr → Bool
  | some (.uncaught _) => true
  | _ => false

/-! Concrete fixtures used to evaluate the handlers on explicit inputs:
a sample environment whose validator accepts (`envOk`) and one whose
validator rejects (`envBad`), a request body, and sample users.  In
`envOk`/`envBad` the format translator and `as_str` are the identity,
staging writes a fixed file body, `prep_yaml` reads back the document
`Val.str "p"`, normalization wraps its input in a singleton list (so it
is visibly not the identity), `pyaml.dump` prints the underlying string,
and the YAML reader parses a string to itself. -/

/-- Sample environment whose schema validator accepts. -/
def envOk : Env where
  fbpToCis := fun v => v
  asStr := fun v => v
  safeDump := fun _ => "staged"
  prepYaml := fun _ => .ok (.str "p")
  normalize := fun v => .list [v]
  validate := fun _ => .ok ()
  pyamlDump := fun v => match v with | .str s => s | _ => "?"
  parse := fun s => some (.str s)
  execGraph := fun g u => .str (g ++ "@" ++ u)

/-- Sample environment whose schema validator rejects with text "bad". -/
def envBad : Env where
  fbpToCis := fun v => v
  asStr := fun v => v
  safeDump := fun _ => "staged"
  prepYaml := fun _ => .ok (.str "p")
  normalize := fun v => .list [v]
  validate := fun _ => .error "bad"
  pyamlDump := fun v => match v with | .str s => s | _ => "?"
  parse := fun s => some (.str s)
  execGraph := fun g u => .str (g ++ "@" ++ u)

/-- Sample environment whose `prep_yaml` raises with text "prepfail". -/
def envPrepFail : Env where
  fbpToCis := fun v => v
  asStr := fun v => v
  safeDump := fun _ => "staged"
  prepYaml := fun _ => .error "prepfail"
  normalize := fun v => .list [v]
  validate := fun _ => .ok ()
  pyamlDump := fun v => match v with | .str s => s | _ => "?"
  parse := fun s => some (.str s)
  execGraph := fun g u => .str (g ++ "@" ++ u)

/-- Sample convert/execute request body `{"content": "g"}`. -/
def body0 : Dict := [("content", .str "g")]

/-- Sample non-admin user. -/
def user0 : User := ⟨"u1", "alice", false⟩

/-- Sample admin user. -/
def admin0 : User := ⟨"u2", "root", true⟩

/-- Sample stored graph document (as loaded by `modelParam`). -/
def stored0 : Dict :=
  [("_id", .str "g1"), ("name", .str "old"), ("content", .str "oldc"),
   ("creatorId", .str "u9"), ("public", .bool false)]

/-- Sample update request body. -/
def updBody0 : Dict :=
  [("name", .str "new"), ("content", .str "newc"), ("public", .bool true)]

/-- Sample update request body that unsets the public flag. -/
def updBody1 : Dict :=
  [("name", .str "new"), ("content", .str "newc"), ("public", .bool false)]

/-- Sample malformed update body: `public` present but `name` and
`content` missing. -/
def pubOnlyBody : Dict := [("public", .bool true)]

/-- Sample document store holding the single graph `stored0` under id
"g1". -/
def db0 : String → Option Dict := fun id =>
  if id = "g1" then some stored0 else none

/-- An access-control decision that denies read access to everyone (the
graph is not public and no requester is authorized). -/
def denyAll : Option User → Dict → Bool := fun _ _ => false

/-! Helper lemmas about dict update. -/

theorem lookup_setKey_self (d : Dict) (k : String) (v : Val) :
    lookup (setKey d k v) k = some v := by
  induction d with
  | nil => simp [setKey, lookup]
  | cons kv rest ih =>
    obtain ⟨k1, v1⟩ := kv
    by_cases h : k1 = k
    · simp [setKey, h, lookup]
    · simp [setKey, h, lookup, ih]

theorem lookup_setKey_ne (d : Dict) (k k' : String) (v : Val)
    (h : k' ≠ k) :
    lookup (setKey d k v) k' = lookup d k' := by
  induction d with
  | nil => simp [setKey, lookup, Ne.symm h]
  | cons kv rest ih =>
    obtain ⟨k1, v1⟩ := kv
    by_cases h1 : k1 = k
    · subst h1
      simp [setKey, lookup, Ne.symm h]
    · simp [setKey, h1, lookup, ih]

/-- C4: a non-admin update whose body sets `public` to `true` fails with
the 403 `RestException` and makes no persistence call, so the stored
record (in particular its `public` field) is unchanged. -/
theorem updateGraph_nonadmin_public_true_rejected
    (user : User) (stored body : Dict) (nm ct : Val)
    (hn : lookup body "name" = some nm)
    (hc : lookup body "content" = some ct)
    (hp : lookup body "public" = some (Val.bool true))
    (ha : user.admin = false) :
    updateGraph user stored body =
      .error (.rest "Not authorized to create public graphs" 403 "") ∧
    runUpdateOnStore stored user body = (stored, false) := by
  constructor <;>
    simp [updateGraph, runUpdateOnStore, hn, hc, hp, truthy, ha]

/-- Witness for C4 at `user0` (non-admin), `stored0`, `updBody0`. -/
theorem updateGraph_nonadmin_public_true_rejected_witness :
    updateGraph user0 stored0 updBody0 =
      .error (.rest "Not authorized to create public graphs" 403 "") ∧
    runUpdateOnStore stored0 user0 updBody0 = (stored0, false) :=
  updateGraph_nonadmin_public_true_rejected user0 stored0 updBody0
    (.str "new") (.str "newc") rfl rfl rfl rfl

/-- C6: an admin update whose body sets `public` to `true` persists the
record with `public = true`. -/
theorem updateGraph_admin_public_true_persisted
    (user : User) (stored body : Dict) (nm ct : Val)
    (hn : lookup body "name" = some nm)
    (hc : lookup body "content" = some ct)
    (hp : lookup body "public" = some (Val.bool true))
    (ha : user.admin = true) :
    updateGraph user stored body =
      .ok (setKey (setKey (setKey stored "name" nm) "content" ct)
            "public" (.bool true)) ∧
    lookup (runUpdateOnStore stored user body).1 "public" =
      some (.bool true) ∧
    (runUpdateOnStore stored user body).2 = true := by
  refine ⟨?_, ?_, ?_⟩ <;>
    simp [updateGraph, runUpdateOnStore, hn, hc, hp, truthy, ha,
      lookup_setKey_self]

/-- Witness for C6 at `admin0`, `stored0`, `updBody0`. -/
theorem updateGraph_admin_public_true_persisted_witness :
    lookup (runUpdateOnStore stored0 admin0 updBody0).1 "public" =
      some (.bool true) :=
  (updateGraph_admin_public_true_persisted admin0 stored0 updBody0
    (.str "new") (.str "newc") rfl rfl rfl rfl).2.1

/-- C10: when the body's `public` value is falsy, the admin check is
skipped and the value is applied and persisted for any acting user,
admin or not. -/
theorem updateGraph_falsy_public_applied
    (user : User) (stored body : Dict) (nm ct p : Val)
    (hn : lookup body "name" = some nm)
    (hc : lookup body "content" = some ct)
    (hp : lookup body "public" = some p)
    (hf : truthy p = false) :
    updateGraph user stored body =
      .ok (setKey (setKey (setKey stored "name" nm) "content" ct)
            "public" p) ∧
    lookup (runUpdateOnStore stored user body).1 "public" = some p ∧
    (runUpdateOnStore stored user body).2 = true := by
  refine ⟨?_, ?_, ?_⟩ <;>
    simp [updateGraph, runUpdateOnStore, hn, hc, hp, hf,
      lookup_setKey_self]

/-- Witness for C10: the non-admin `user0` unsets `public` via
`updBody1`. -/
theorem updateGraph_falsy_public_applied_witness :
    lookup (runUpdateOnStore stored0 user0 updBody1).1 "public" =
      some (.bool false) ∧
    (runUpdateOnStore stored0 user0 updBody1).2 = true :=
  (updateGraph_falsy_public_applied user0 stored0 updBody1
    (.str "new") (.str "newc") (.bool false) rfl rfl rfl rfl).2

/-- C9: a body missing `name` (or missing `content`) makes `updateGraph`
raise an uncaught `KeyError` for that key — for every acting user,
admin or not, and whatever `public` the body carries, so before the
`public` authorization check — and no persistence call is made. -/
theorem updateGraph_missing_key_keyerror
    (user : User) (stored body : Dict) :
    (lookup body "name" = none →
      updateGraph user stored body = .error (.keyError "name") ∧
      runUpdateOnStore stored user body = (stored, false)) ∧
    (∀ nm, lookup body "name" = some nm → lookup body "content" = none →
      updateGraph user stored body = .error (.keyError "content") ∧
      runUpdateOnStore stored user body = (stored, false)) := by
  constructor
  · intro h
    constructor <;> simp [updateGraph, runUpdateOnStore, h]
  · intro nm hn hc
    constructor <;> simp [updateGraph, runUpdateOnStore, hn, hc]

/-- Witness for C9: the non-admin `user0` sends `{"public": true}`; the
result is the `KeyError`, not the 403 authorization error. -/
theorem updateGraph_missing_key_keyerror_witness :
    updateGraph user0 stored0 pubOnlyBody = .error (.keyError "name") ∧
    runUpdateOnStore stored0 user0 pubOnlyBody = (stored0, false) :=
  (updateGraph_missing_key_keyerror user0 stored0 pubOnlyBody).1 rfl

/-- C7: a created graph carries `creatorId` equal to the creator's
identifier, and an update only ever writes `name`, `content` and
(conditionally) `public`: every other stored field, `creatorId`
included, is unchanged by `updateGraph`. -/
theorem creatorId_tagged_and_update_frame :
    (∀ (u : User) (body : Dict),
      lookup (createGraph u body) "creatorId" = some (.str u.id)) ∧
    (∀ (u : User) (stored body : Dict) (k : String),
      k ≠ "name" → k ≠ "content" → k ≠ "public" →
      lookup (runUpdateOnStore stored u body).1 k = lookup stored k) := by
  constructor
  · intro u body
    simp [createGraph, modelCreateGraph, lookup_setKey_self]
  · intro u stored body k h1 h2 h3
    unfold runUpdateOnStore updateGraph
    cases hn : lookup body "name" with
    | none => simp
    | some nm =>
      cases hc : lookup body "content" with
      | none => simp
      | some ct =>
        cases hp : lookup body "public" with
        | none =>
          simp [lookup_setKey_ne _ _ _ _ h2, lookup_setKey_ne _ _ _ _ h1]
        | some p =>
          by_cases ht : truthy p && !u.admin
          · simp [ht]
          · simp [ht, lookup_setKey_ne _ _ _ _ h3,
              lookup_setKey_ne _ _ _ _ h2, lookup_setKey_ne _ _ _ _ h1]

/-- Witness for C7 at concrete inputs: creation tags `creatorId` with
the creator's id, and an admin update leaves `creatorId` untouched. -/
theorem creatorId_tagged_and_update_frame_witness :
    lookup (createGraph user0 updBody0) "creatorId" = some (.str "u1") ∧
    lookup (runUpdateOnStore stored0 admin0 updBody0).1 "creatorId" =
      lookup stored0 "creatorId" :=
  ⟨creatorId_tagged_and_update_frame.1 user0 updBody0,
   creatorId_tagged_and_update_frame.2 admin0 stored0 updBody0 "creatorId"
     (by decide) (by decide) (by decide)⟩

/-- C2: evaluation of `getGraph` at the failing configuration.  Because
line 134 passes `force=True` to the model loader, the handler returns
the record even when the access-control decision denies read access to
the requester (here: anonymous requester, `denyAll` denies everyone),
instead of the 403 its own `.errorResponse` declares; only the
invalid-id branch behaves as documented. -/
theorem getGraph_force_bypasses_read_check :
    denyAll none stored0 = false ∧
    getGraph db0 denyAll none "g1" = .ok stored0 ∧
    getGraph db0 denyAll none "missing" = .error .invalidId := by
  refine ⟨rfl, ?_, ?_⟩ <;> simp [getGraph, modelParamLoad, db0, denyAll]

/-- C5: `executeGraph` fails exactly when `convertGraph` fails, with the
same error (same conversion, staging, normalization, validation
pipeline); execution is dispatched exactly on the error-free runs; and
the dispatched payload is `execGraph` applied to `convertGraph`'s
returned text and the user's login. -/
theorem executeGraph_matches_convertGraph
    (env : Env) (user : User) (graph : Dict) :
    errOf (executeGraph env user graph).result =
      errOf (convertGraph env graph).result ∧
    ((executeGraph env user graph).execCalled = true ↔
      errOf (executeGraph env user graph).result = none) ∧
    (∀ t, (convertGraph env graph).result = .ok t →
      (executeGraph env user graph).result =
        .ok (env.execGraph t user.login)) := by
  unfold convertGraph executeGraph
  cases hl : lookup graph "content" with
  | none => simp [errOf]
  | some c =>
    cases hp : env.prepYaml (env.safeDump (env.asStr (env.fbpToCis c))) with
    | error e => simp [errOf, hp]
    | ok yp =>
      cases hv : env.validate (env.normalize yp) with
      | error e => simp [errOf, hp, hv]
      | ok u => simp [errOf, hp, hv]

/-- Witness for C5: on the accepting environment the dispatched result
is `execGraph` of the converted text and `user0`'s login. -/
theorem executeGraph_matches_convertGraph_witness :
    (executeGraph envOk user0 body0).result =
      .ok (envOk.execGraph "g" user0.login) :=
  (executeGraph_matches_convertGraph envOk user0 body0).2.2 "g" rfl

/-- C8: in both `convertGraph` and `executeGraph`, the
`RestException('Invalid graph %s', 400, e)` is raised exactly when the
run reaches schema validation and the validator rejects the normalized
document with exception `e` — the payload carries the validator's
exception, and no other condition produces that 400. -/
theorem validation_failure_400_iff
    (env : Env) (user : User) (graph : Dict) (e : String) :
    (errOf (convertGraph env graph).result =
        some (.rest "Invalid graph %s" 400 e) ↔
      ∃ n, normalizedDoc env graph = some n ∧
        env.validate n = .error e) ∧
    (errOf (executeGraph env user graph).result =
        some (.rest "Invalid graph %s" 400 e) ↔
      ∃ n, normalizedDoc env graph = some n ∧
        env.validate n = .error e) := by
  unfold convertGraph executeGraph normalizedDoc
  cases hl : lookup graph "content" with
  | none => simp [errOf]
  | some c =>
    cases hp : env.prepYaml (env.safeDump (env.asStr (env.fbpToCis c))) with
    | error e1 => simp [errOf, hp]
    | ok yp =>
      cases hv : env.validate (env.normalize yp) with
      | error e1 => simp [errOf, hp, hv]
      | ok u => simp [errOf, hp, hv]

/-- Witness for C8: the rejecting environment produces exactly the 400
carrying the validator's exception text "bad". -/
theorem validation_failure_400_iff_witness :
    errOf (convertGraph envBad body0).result =
      some (.rest "Invalid graph %s" 400 "bad") :=
  (validation_failure_400_iff envBad user0 body0 "bad").1.mpr
    ⟨.list [.str "p"], rfl, rfl⟩

/-- C3 counterexample: in a run where the schema validator raises
(`envBad`), both handlers raise the 400 with the temporary file already
removed (`tmpLeft = false`) — the removal at graph.py line 198 / 233
precedes validation, so the validator's exception does not orphan the
file. -/
theorem validator_raise_leaves_no_orphan_ce :
    (convertGraph envBad body0).result =
      .error (.rest "Invalid graph %s" 400 "bad") ∧
    (convertGraph envBad body0).tmpLeft = false ∧
    (executeGraph envBad user0 body0).result =
      .error (.rest "Invalid graph %s" 400 "bad") ∧
    (executeGraph envBad user0 body0).tmpLeft = false :=
  ⟨rfl, rfl, rfl, rfl⟩

/-- C3 amended: in `convertGraph` and `executeGraph` the temporary file
outlives the call exactly when `prep_yaml` raises (between the write and
the `os.remove`); a schema-validation failure, like the success path,
leaves no orphan because the removal precedes normalization and
validation. -/
theorem tmpfile_orphan_iff_prep_raises
    (env : Env) (user : User) (graph : Dict) :
    (convertGraph env graph).tmpLeft =
      leftOrphan (errOf (convertGraph env graph).result) ∧
    (executeGraph env user graph).tmpLeft =
      leftOrphan (errOf (executeGraph env user graph).result) := by
  unfold convertGraph executeGraph
  cases hl : lookup graph "content" with
  | none => simp [errOf, leftOrphan]
  | some c =>
    cases hp : env.prepYaml (env.safeDump (env.asStr (env.fbpToCis c))) with
    | error e => simp [errOf, leftOrphan, hp]
    | ok yp =>
      cases hv : env.validate (env.normalize yp) with
      | error e => simp [errOf, leftOrphan, hp, hv]
      | ok u => simp [errOf, leftOrphan, hp, hv]

/-- C1 counterexample: on `envOk` (whose normalization is visibly not
the identity) `convertGraph` returns the text "g", which re-parses to
the pre-normalization conversion output `Val.str "g"`, not to the
document `Val.list [Val.str "p"]` produced by schema normalization. -/
theorem convertGraph_prenormalization_ce :
    (convertGraph envOk body0).result = .ok "g" ∧
    envOk.parse "g" = some (.str "g") ∧
    normalizedDoc envOk body0 = some (.list [.str "p"]) ∧
    some (Val.str "g") ≠ some (Val.list [.str "p"]) :=
  ⟨rfl, rfl, rfl, fun h => by simp at h⟩

/-- C1 amended: on the success path `convertGraph` returns
`pyaml.dump(cisgraph)`, the serialization of the pre-normalization
conversion output `as_str(fbpToCis(content))`; the normalized document
is used only as the input to validation, not as the response. -/
theorem convertGraph_returns_conversion_dump
    (env : Env) (graph : Dict) (c : Val) (t : String)
    (hc : lookup graph "content" = some c)
    (ht : (convertGraph env graph).result = .ok t) :
    t = env.pyamlDump (env.asStr (env.fbpToCis c)) := by
  unfold convertGraph at ht
  rw [hc] at ht
  cases hp : env.prepYaml (env.safeDump (env.asStr (env.fbpToCis c))) with
  | error e => simp [hp] at ht
  | ok yp =>
    cases hv : env.validate (env.normalize yp) with
    | error e => simp [hp, hv] at ht
    | ok u =>
      simp [hp, hv] at ht
      exact ht.symm

/-- Witness for the C1 amendment at `envOk`, `body0`. -/
theorem convertGraph_returns_conversion_dump_witness :
    ("g" : String) = envOk.pyamlDump (envOk.asStr (envOk.fbpToCis (.str "g"))) :=
  convertGraph_returns_conversion_dump envOk body0 (.str "g") "g" rfl rfl

end Cis
